import Mathlib

/-!
Shallow embedding of the flying-item scene core of the repository
(file: a client-side 3D scene with an item spawner, per-item animators
and a cross-fade transition at a central beam).

The source file holds two near-duplicate scene implementations; per the
specification they are treated as one canonical design.  The canonical
scene is the second one (spawn interval 1.8, capacity check
`active.length > 8`, start coordinate -9, transition width 1.0); the
first implementation is embedded only where a claim cites it (the
target-variant pick over an enumeration that still contains the
value-token tag).

Real numbers of the source are modelled as rationals: every constant in
the relevant code paths is a decimal literal, and the trigonometric
wobble (Math.sin / Math.cos, irrelevant to every claim) is abstracted
as a function parameter standing for the external math library.
Math.random() results are passed in as explicit inputs in [0, 1).
-/

/-- Target variants of the canonical scene
(COMPONENT_TYPES of the second implementation). -/
inductive ComponentType where
  | gpu
  | ram
  | motherboard
deriving DecidableEq, Repr

/-- COMPONENT_TYPES of the canonical scene. -/
def COMPONENT_TYPES : List ComponentType :=
  [ComponentType.gpu, ComponentType.ram, ComponentType.motherboard]

/-- Per-axis rotation increments of a flying item. -/
structure RotationSpeed where
  x : ℚ
  y : ℚ
  z : ℚ
deriving DecidableEq, Repr

/-- FlyingItem of the canonical scene. -/
structure FlyingItem where
  id : Nat
  initialY : ℚ
  initialZ : ℚ
  speed : ℚ
  targetComponent : ComponentType
  rotationSpeed : RotationSpeed
deriving DecidableEq, Repr

/-- One Math.random() sample per randomized field of a spawned item. -/
structure RandInputs where
  rY : ℚ
  rZ : ℚ
  rSpeed : ℚ
  rTarget : ℚ
  rRotX : ℚ
  rRotY : ℚ
  rRotZ : ℚ
deriving DecidableEq, Repr

/-- Target pick of the canonical scene:
COMPONENT_TYPES[Math.floor(Math.random() * COMPONENT_TYPES.length)]. -/
def pickTargetComponent (r : ℚ) : ComponentType :=
  COMPONENT_TYPES.getD (Int.toNat ⌊r * (COMPONENT_TYPES.length : ℚ)⌋) ComponentType.gpu

/-- The object literal appended by spawnItem in the canonical scene. -/
def newFlyingItem (id : Nat) (r : RandInputs) : FlyingItem :=
  { id := id
    initialY := (r.rY - 1/2) * 3
    initialZ := (r.rZ - 1/2) * 3
    speed := 3/2 + r.rSpeed * (1/2)
    targetComponent := pickTargetComponent r.rTarget
    rotationSpeed :=
      { x := (r.rRotX - 1/2) * (1/50)
        y := (r.rRotY - 1/2) * (1/50)
        z := (r.rRotZ - 1/2) * (1/50) } }

/-- The setItems updater of spawnItem in the canonical scene: keep all
items (the filter predicate is constantly true), shift the oldest when
more than 8 are held, then append the freshly created item. -/
def spawnItem (prev : List FlyingItem) (id : Nat) (r : RandInputs) : List FlyingItem :=
  let active := prev.filter (fun _ => true)
  let active := if active.length > 8 then active.drop 1 else active
  active ++ [newFlyingItem id r]

/-- State owned by the canonical TakaScene component:
the active item list, the next id counter, and the last spawn time. -/
structure SceneState where
  items : List FlyingItem
  nextId : Nat
  lastSpawnTime : ℚ
deriving DecidableEq, Repr

/-- The spawn interval of the canonical scene (the 1.8 in
state.clock.elapsedTime - lastSpawnTime.current > 1.8). -/
def SPAWN_INTERVAL : ℚ := 9/5

/-- The useFrame callback of the canonical TakaScene: if more than the
spawn interval has elapsed since the last spawn, spawn exactly one item
and record the spawn time; otherwise do nothing. -/
def takaSceneTick (s : SceneState) (elapsedTime : ℚ) (r : RandInputs) : SceneState :=
  if elapsedTime - s.lastSpawnTime > SPAWN_INTERVAL then
    { items := spawnItem s.items s.nextId r
      nextId := s.nextId + 1
      lastSpawnTime := elapsedTime }
  else s

/-- Initial scene state: no items, next id 0, last spawn time 0. -/
def initialScene : SceneState := { items := [], nextId := 0, lastSpawnTime := 0 }

/-- A fixed choice for every Math.random() sample (0.5, inside [0,1)). -/
def halfRand : RandInputs := ⟨1/2, 1/2, 1/2, 1/2, 1/2, 1/2, 1/2⟩

/-- Run the canonical scene for n frame ticks at times 2, 4, ..., 2n
(each gap exceeds the 1.8 spawn interval, so every tick spawns). -/
def runScene : Nat → SceneState
  | 0 => initialScene
  | n + 1 => takaSceneTick (runScene n) ((runScene n).lastSpawnTime + 2) halfRand

/-! ## Item animator (canonical scene) -/

/-- The transform state of the render group a mounted item animator
mutates each tick: position, rotation, and the scales of its two
children (child 0 the value token, child 1 the target component). -/
structure RenderGroup where
  posX : ℚ
  posY : ℚ
  posZ : ℚ
  rotX : ℚ
  rotY : ℚ
  rotZ : ℚ
  takaScale : ℚ
  compScale : ℚ
deriving DecidableEq, Repr

/-- State of one ItemAnimator: the lazily captured birth time
(startTime ref, null until first tick) and the render handle
(groupRef, none while the renderable subtree is not mounted). -/
structure AnimatorState where
  startTime : Option ℚ
  group : Option RenderGroup
deriving DecidableEq, Repr

/-- beamCenter of the canonical scene. -/
def beamCenter : ℚ := 0

/-- transitionWidth of the canonical scene. -/
def transitionWidth : ℚ := 1

/-- Blend factor computation of the canonical ItemAnimator: 0 left of
the transformation zone, 1 right of it, normalised linear inside. -/
def blend (x : ℚ) : ℚ :=
  if x < beamCenter - transitionWidth / 2 then 0
  else if x > beamCenter + transitionWidth / 2 then 1
  else (x - (beamCenter - transitionWidth / 2)) / transitionWidth

/-- Horizontal position of the canonical ItemAnimator:
x = -9 + timeAlive * speed. -/
def xPosition (speed timeAlive : ℚ) : ℚ := -9 + timeAlive * speed

/-- Effective scale applied to the value-token child:
takaScale > 0 ? takaScale : 0.001 with takaScale = 1 - blend. -/
def takaEffectiveScale (b : ℚ) : ℚ :=
  if 1 - b > 0 then 1 - b else 1/1000

/-- Effective scale applied to the component child:
compScale > 0 ? compScale : 0.001 with compScale = blend. -/
def compEffectiveScale (b : ℚ) : ℚ :=
  if b > 0 then b else 1/1000

/-- The useFrame callback of the canonical ItemAnimator.  sinF and cosF
stand for the external math library's sine and cosine.  The birth time
is captured before the render-handle guard; with no handle the rest of
the tick is skipped.  A mounted tick recomputes position, accumulates
rotation, and applies the blend-derived scales to both children. -/
def itemAnimatorTick (sinF cosF : ℚ → ℚ) (data : FlyingItem) (elapsedTime : ℚ)
    (s : AnimatorState) : AnimatorState :=
  let startT := s.startTime.getD elapsedTime
  match s.group with
  | none => { s with startTime := some startT }
  | some g =>
    let timeAlive := elapsedTime - startT
    let x := xPosition data.speed timeAlive
    let b := blend x
    { startTime := some startT
      group := some
        { posX := x
          posY := data.initialY + sinF (timeAlive + (data.id : ℚ)) * (1/2)
          posZ := data.initialZ + cosF (timeAlive * (8/10) + (data.id : ℚ)) * (1/2)
          rotX := g.rotX + data.rotationSpeed.x
          rotY := g.rotY + data.rotationSpeed.y
          rotZ := g.rotZ + data.rotationSpeed.z
          takaScale := takaEffectiveScale b
          compScale := compEffectiveScale b } }

/-! ## First scene implementation: target pick over an enumeration
that still contains the value-token tag -/

/-- Component types of the first scene implementation, whose
enumeration contains the value-token tag twice. -/
inductive ComponentTypeV1 where
  | taka
  | gpu
  | ram
  | cpu
  | motherboard
deriving DecidableEq, Repr

/-- COMPONENT_TYPES of the first scene implementation:
a list containing the value-token tag (twice) and the four
hardware component tags. -/
def COMPONENT_TYPES_V1 : List ComponentTypeV1 :=
  [ComponentTypeV1.taka, ComponentTypeV1.taka, ComponentTypeV1.gpu,
    ComponentTypeV1.ram, ComponentTypeV1.cpu, ComponentTypeV1.motherboard]

/-- Target pick of the first scene implementation:
COMPONENT_TYPES[Math.floor(Math.random() * (COMPONENT_TYPES.length - 2)) + 2],
skipping the two leading value-token entries. -/
def pickTypeV1 (r : ℚ) : ComponentTypeV1 :=
  COMPONENT_TYPES_V1.getD
    (Int.toNat ⌊r * ((COMPONENT_TYPES_V1.length - 2 : Nat) : ℚ)⌋ + 2)
    ComponentTypeV1.taka

/-- The fallback render branch of the first implementation fires
exactly when the item's type is the value-token tag
(the condition of the JSX branch rendering GLTF_GPU as a fallback). -/
def usesFallbackBranch (t : ComponentTypeV1) : Bool :=
  t == ComponentTypeV1.taka

/-! ## Helper lemmas (shared) -/

/-- The keep-all filter of spawnItem leaves the list unchanged. -/
theorem filter_true_eq (l : List FlyingItem) : l.filter (fun _ => true) = l :=
  List.filter_eq_self.mpr (fun _ _ => rfl)

/-- Length of the list produced by one spawn update. -/
theorem spawnItem_length (prev : List FlyingItem) (id : Nat) (r : RandInputs) :
    (spawnItem prev id r).length =
      (if 8 < prev.length then prev.length - 1 else prev.length) + 1 := by
  simp only [spawnItem, filter_true_eq, List.length_append, List.length_singleton]
  split_ifs with h
  · simp [List.length_drop]
  · rfl

/-- blend never goes below 0. -/
theorem blend_nonneg (x : ℚ) : 0 ≤ blend x := by
  unfold blend beamCenter transitionWidth
  simp only [div_one]
  split_ifs with h1 h2 <;> push_neg at * <;> linarith

/-- blend never goes above 1. -/
theorem blend_le_one (x : ℚ) : blend x ≤ 1 := by
  unfold blend beamCenter transitionWidth
  simp only [div_one]
  split_ifs with h1 h2 <;> push_neg at * <;> linarith

/-- blend is monotone in the horizontal position. -/
theorem blend_mono (x₁ x₂ : ℚ) (h : x₁ ≤ x₂) : blend x₁ ≤ blend x₂ := by
  unfold blend beamCenter transitionWidth
  simp only [div_one]
  split_ifs <;> push_neg at * <;> linarith

/-! ## Claim theorems -/

/-- C1 counterexample: the claim's bound K = 8 fails on the canonical
scene.  Starting from the empty scene and ticking 9 times (each tick a
spawn), the 9th spawn tick produces a collection of 9 items: the size
is not min(previous_size + 1, 8) and exceeds 8, because the code evicts
only when the pre-append size already exceeds 8. -/
theorem spawn_size_exceeds_eight :
    8 < (runScene 9).items.length ∧
    (runScene 9).items = spawnItem (runScene 8).items (runScene 8).nextId halfRand ∧
    (runScene 9).items.length ≠ min ((runScene 8).items.length + 1) 8 := by
  refine ⟨?_, ?_, ?_⟩ <;>
    norm_num [runScene, takaSceneTick, spawnItem, newFlyingItem, pickTargetComponent,
      COMPONENT_TYPES, SPAWN_INTERVAL, initialScene, halfRand]

/-- C1 (amended): for every spawn update from a reachable collection
(size at most 9), the size after the update is min(previous_size + 1, 9)
and never exceeds 9: the canonical scene's effective capacity is 9, not
8, since the oldest item is evicted only when the pre-append size
exceeds 8. -/
theorem spawn_size_min_nine (prev : List FlyingItem) (id : Nat) (r : RandInputs)
    (h : prev.length ≤ 9) :
    (spawnItem prev id r).length = min (prev.length + 1) 9 ∧
    (spawnItem prev id r).length ≤ 9 := by
  rw [spawnItem_length]
  split_ifs with h2 <;> omega

/-- C1 witness: the amended size bound at the empty collection. -/
theorem spawn_size_min_nine_witness :
    (spawnItem [] 0 halfRand).length = min (([] : List FlyingItem).length + 1) 9 ∧
    (spawnItem [] 0 halfRand).length ≤ 9 :=
  spawn_size_min_nine [] 0 halfRand (by simp)

/-- C2 counterexample: with K = 8 the claim says that immediately after
the (K+1)th = 9th spawn the collection no longer contains id 0; on the
canonical scene the 9 spawns produce ids 0..8 and id 0 is still
present (no eviction has happened yet). -/
theorem id_zero_survives_ninth_spawn :
    (runScene 9).items.map FlyingItem.id = [0, 1, 2, 3, 4, 5, 6, 7, 8] ∧
    0 ∈ (runScene 9).items.map FlyingItem.id := by
  constructor <;>
    norm_num [runScene, takaSceneTick, spawnItem, newFlyingItem, pickTargetComponent,
      COMPONENT_TYPES, SPAWN_INTERVAL, initialScene, halfRand]

/-- C2 (amended): eviction is FIFO, but the first eviction happens one
spawn later than claimed: for spawns producing ids 0..9 in order with no
other removals (10 spawns), immediately after the 10th spawn the active
collection holds exactly ids 1..9 in order, so the oldest item (id 0)
has been evicted and insertion order is preserved. -/
theorem fifo_eviction_tenth_spawn :
    (runScene 10).items.map FlyingItem.id = [1, 2, 3, 4, 5, 6, 7, 8, 9] := by
  norm_num [runScene, takaSceneTick, spawnItem, newFlyingItem, pickTargetComponent,
    COMPONENT_TYPES, SPAWN_INTERVAL, initialScene, halfRand]

/-- C6: the spawner is fixed-rate: one scene tick creates at most one
item and increments the id counter at most once, however much time has
elapsed since the last spawn; when the spawn fires the spawn time is
recorded as the current elapsed time, and when the interval has not yet
elapsed the tick changes nothing. -/
theorem takaSceneTick_fixed_rate (s : SceneState) (t : ℚ) (r : RandInputs) :
    (takaSceneTick s t r).items.length ≤ s.items.length + 1 ∧
    (takaSceneTick s t r).nextId ≤ s.nextId + 1 ∧
    (t - s.lastSpawnTime > SPAWN_INTERVAL →
      (takaSceneTick s t r).nextId = s.nextId + 1 ∧
      (takaSceneTick s t r).lastSpawnTime = t) ∧
    (¬ t - s.lastSpawnTime > SPAWN_INTERVAL → takaSceneTick s t r = s) := by
  unfold takaSceneTick
  split_ifs with h
  · refine ⟨?_, Nat.le_refl _, fun _ => ⟨rfl, rfl⟩, fun h2 => absurd h h2⟩
    show (spawnItem s.items s.nextId r).length ≤ s.items.length + 1
    rw [spawnItem_length]
    split_ifs with h2 <;> omega
  · exact ⟨by omega, by omega, fun h2 => absurd h2 h, fun _ => rfl⟩

/-- C6 witness: one tick of the initial scene at elapsed time 2 spawns
exactly one item and records the spawn time 2. -/
theorem takaSceneTick_fixed_rate_witness :
    (takaSceneTick initialScene 2 halfRand).nextId = initialScene.nextId + 1 ∧
    (takaSceneTick initialScene 2 halfRand).lastSpawnTime = 2 :=
  (takaSceneTick_fixed_rate initialScene 2 halfRand).2.2.1
    (by norm_num [initialScene, SPAWN_INTERVAL])

/-- C3: for every horizontal position the computed blend factor lies in
[0, 1], and it is monotonically non-decreasing as the horizontal
position increases, so a fixed item whose position only grows (clock
not regressing, positive speed) never sees the blend jump backward. -/
theorem blend_in_unit_interval_and_monotone (x₁ x₂ : ℚ) (h : x₁ ≤ x₂) :
    0 ≤ blend x₁ ∧ blend x₁ ≤ 1 ∧ blend x₁ ≤ blend x₂ :=
  ⟨blend_nonneg x₁, blend_le_one x₁, blend_mono x₁ x₂ h⟩

/-- C3 witness: the bounds and monotonicity at positions -1 and 0. -/
theorem blend_in_unit_interval_and_monotone_witness :
    0 ≤ blend (-1) ∧ blend (-1) ≤ 1 ∧ blend (-1) ≤ blend 0 :=
  blend_in_unit_interval_and_monotone (-1) 0 (by norm_num)

/-- C4: strictly left of the transformation zone the blend is 0 and the
component child's effective scale sits at the clamped minimum 0.001;
strictly right of the zone the blend is 1 and the value-token child's
effective scale sits at the clamped minimum 0.001. -/
theorem blend_saturation_outside_zone (x : ℚ) :
    (x < beamCenter - transitionWidth / 2 →
      blend x = 0 ∧ compEffectiveScale (blend x) = 1/1000) ∧
    (x > beamCenter + transitionWidth / 2 →
      blend x = 1 ∧ takaEffectiveScale (blend x) = 1/1000) := by
  unfold blend compEffectiveScale takaEffectiveScale beamCenter transitionWidth
  constructor
  · intro h
    rw [if_pos h]
    norm_num
  · intro h
    rw [if_neg (by linarith), if_pos h]
    norm_num

/-- C4 witness: saturation at the concrete positions -1 and 1. -/
theorem blend_saturation_outside_zone_witness :
    (blend (-1) = 0 ∧ compEffectiveScale (blend (-1)) = 1/1000) ∧
    (blend 1 = 1 ∧ takaEffectiveScale (blend 1) = 1/1000) :=
  ⟨(blend_saturation_outside_zone (-1)).1 (by norm_num [beamCenter, transitionWidth]),
    (blend_saturation_outside_zone 1).2 (by norm_num [beamCenter, transitionWidth])⟩

/-- C5 counterexample: in the canonical scene the component child's
effective scale is not blend * scaleJitter.  At position -2 the blend is
0, so blend times any jitter value is 0 (11/10 is a sample jitter from
the documented range), yet the code applies the epsilon clamp 0.001. -/
theorem comp_scale_not_blend_times_jitter :
    compEffectiveScale (blend (-2)) ≠ blend (-2) * (11/10) := by
  norm_num [blend, compEffectiveScale, beamCenter, transitionWidth]

/-- C5 (amended): both children's effective scales are clamped to the
small positive epsilon 0.001 rather than 0: the value-token scale is
1 - blend while that is positive and 0.001 otherwise, the component
scale is blend while that is positive and 0.001 otherwise, with no
scale-jitter factor (the canonical scene's items carry none), and both
effective scales are always strictly positive. -/
theorem effective_scales_clamped (b : ℚ) :
    0 < takaEffectiveScale b ∧ 0 < compEffectiveScale b ∧
    (b < 1 → takaEffectiveScale b = 1 - b) ∧
    (1 ≤ b → takaEffectiveScale b = 1/1000) ∧
    (0 < b → compEffectiveScale b = b) ∧
    (b ≤ 0 → compEffectiveScale b = 1/1000) := by
  unfold takaEffectiveScale compEffectiveScale
  refine ⟨?_, ?_, fun h => ?_, fun h => ?_, fun h => ?_, fun h => ?_⟩ <;>
    split_ifs with h2 <;> first | rfl | linarith

/-- C5 witness: the clamping behaviour at blend 1/2, 1 and 0. -/
theorem effective_scales_clamped_witness :
    takaEffectiveScale (1/2) = 1 - 1/2 ∧ compEffectiveScale (1/2) = 1/2 ∧
    takaEffectiveScale 1 = 1/1000 ∧ compEffectiveScale 0 = 1/1000 :=
  ⟨(effective_scales_clamped (1/2)).2.2.1 (by norm_num),
    (effective_scales_clamped (1/2)).2.2.2.2.1 (by norm_num),
    (effective_scales_clamped 1).2.2.2.1 (by norm_num),
    (effective_scales_clamped 0).2.2.2.2.2 (by norm_num)⟩

/-- C7: an item with speed 3/2 spawned at start coordinate -9 sits at
horizontal position 0 (the zone center) at timeAlive = 6, and its blend
factor there is exactly 1/2. -/
theorem zone_center_scenario :
    xPosition (3/2) 6 = 0 ∧ blend (xPosition (3/2) 6) = 1/2 := by
  constructor <;> norm_num [xPosition, blend, beamCenter, transitionWidth]

/-- A concrete spawned item (every random sample 0.5). -/
def itemHalf : FlyingItem := newFlyingItem 0 halfRand

/-- A concrete stand-in for the external sine and cosine. -/
def zeroWave : ℚ → ℚ := fun _ => 0

/-- A fresh animator whose render handle is not yet mounted. -/
def unmountedFresh : AnimatorState := { startTime := none, group := none }

/-- C8 counterexample: a first tick that fires while the render handle
is missing is not a state-preserving no-op: the birth time is captured
before the render-handle guard, so the animator state changes on that
tick. -/
theorem unmounted_first_tick_not_noop :
    itemAnimatorTick zeroWave zeroWave itemHalf 5 unmountedFresh ≠ unmountedFresh := by
  intro hEq
  exact Option.noConfusion (congrArg AnimatorState.startTime hEq)

/-- C8 (amended): while the render handle is missing or not yet
mounted, the tick changes no transform and raises no error (the update
is total); the only state change possible is the one-time birth-time
capture, and an unmounted tick whose birth time is already set changes
nothing at all, so processing resumes normally once mounting
completes. -/
theorem unmounted_tick_only_birth_capture (sinF cosF : ℚ → ℚ) (d : FlyingItem)
    (t : ℚ) (s : AnimatorState) (h : s.group = none) :
    itemAnimatorTick sinF cosF d t s =
      { s with startTime := some (s.startTime.getD t) } ∧
    (itemAnimatorTick sinF cosF d t s).group = none ∧
    (s.startTime.isSome = true → itemAnimatorTick sinF cosF d t s = s) := by
  obtain ⟨st, g⟩ := s
  cases g with
  | none =>
    refine ⟨rfl, rfl, fun hs => ?_⟩
    cases st with
    | none => cases hs
    | some b => rfl
  | some g => exact Option.noConfusion h

/-- C8 witness: an unmounted tick with the birth time already captured
leaves the animator state untouched. -/
theorem unmounted_tick_only_birth_capture_witness :
    itemAnimatorTick zeroWave zeroWave itemHalf 7
      { startTime := some 3, group := none } =
      { startTime := some 3, group := none } :=
  (unmounted_tick_only_birth_capture zeroWave zeroWave itemHalf 7
    { startTime := some 3, group := none } rfl).2.2 rfl

/-- C9: the birth time is captured before the render-handle guard and
assigned exactly once: after any tick the birth time is the previously
stored one if present (never reassigned) and the current elapsed time
otherwise (set even when the render handle is still unmounted), so
timeAlive is measured from the first observed tick. -/
theorem birth_time_captured_once (sinF cosF : ℚ → ℚ) (d : FlyingItem) (t : ℚ)
    (s : AnimatorState) :
    (itemAnimatorTick sinF cosF d t s).startTime = some (s.startTime.getD t) := by
  obtain ⟨st, g⟩ := s
  cases g <;> rfl

/-- C10: for every Math.random() sample in [0, 1), the first scene
implementation's target pick lands on a hardware component tag (gpu,
ram, cpu or motherboard), never the value-token tag, even though the
enumeration it indexes does contain that tag; hence the fallback render
branch (whose condition is the type being the value-token tag) is
unreachable for spawner-created items. -/
theorem spawned_type_never_taka (r : ℚ) (h0 : 0 ≤ r) (h1 : r < 1) :
    pickTypeV1 r ≠ ComponentTypeV1.taka ∧
    pickTypeV1 r ∈ [ComponentTypeV1.gpu, ComponentTypeV1.ram,
      ComponentTypeV1.cpu, ComponentTypeV1.motherboard] ∧
    usesFallbackBranch (pickTypeV1 r) = false ∧
    ComponentTypeV1.taka ∈ COMPONENT_TYPES_V1 := by
  have hlen : ((COMPONENT_TYPES_V1.length - 2 : Nat) : ℚ) = 4 := by
    norm_num [COMPONENT_TYPES_V1]
  have hge : (0 : ℤ) ≤ ⌊r * 4⌋ := Int.le_floor.mpr (by push_cast; linarith)
  have hlt : ⌊r * 4⌋ < 4 := Int.floor_lt.mpr (by push_cast; linarith)
  unfold pickTypeV1
  rw [hlen]
  obtain ⟨n, hn, hn4⟩ : ∃ n : ℕ, Int.toNat ⌊r * 4⌋ = n ∧ n < 4 := ⟨_, rfl, by omega⟩
  rw [hn]
  interval_cases n <;> decide

/-- C10 witness: the pick at the sample 1/2 is the ram tag, not the
value-token tag. -/
theorem spawned_type_never_taka_witness :
    pickTypeV1 (1/2) ≠ ComponentTypeV1.taka ∧
    pickTypeV1 (1/2) ∈ [ComponentTypeV1.gpu, ComponentTypeV1.ram,
      ComponentTypeV1.cpu, ComponentTypeV1.motherboard] ∧
    usesFallbackBranch (pickTypeV1 (1/2)) = false ∧
    ComponentTypeV1.taka ∈ COMPONENT_TYPES_V1 :=
  spawned_type_never_taka (1/2) (by norm_num) (by norm_num)
